import Mathlib

/-!
# hotware: extract an embedded image, set it as wallpaper, delete the temp file

Shallow embedding of the two entry points of the repository:

* `src/main.c`        (Windows variant)  as `Windows.main`
* `src/main_macos.c`  (macOS variant)    as `MacOS.main`

Both programs are straight-line sequences of operating-system calls.  The
result of every call is an input of the model (an "outcome"), the file system
is explicit state, and every call that is issued is recorded, in order,
together with the file system it was issued on.
-/

namespace Hotware

/-! ## Data model -/

/-- One `unsigned char`. -/
abbrev Byte := Fin 256

/-- A C string: the `char`s before the terminating NUL, one list element per
`char`, so that `List.length` is the byte length used by `snprintf`. -/
abbrev CStr := List Char

/-- The file system: the content stored under each path, `none` when the path
does not exist. -/
abbrev FS := CStr → Option (List Byte)

/-- Create the file at `p`, or replace its content, with `c`. -/
def FS.write (fs : FS) (p : CStr) (c : List Byte) : FS :=
  fun q => if q = p then some c else fs q

/-- Remove the directory entry `p`. -/
def FS.remove (fs : FS) (p : CStr) : FS :=
  fun q => if q = p then none else fs q

/-- A library or system call together with the arguments the program passes and
the result the call reports. -/
inductive Call where
  /-- `getenv(name)`; `result = none` is a NULL return. -/
  | getenv (name : CStr) (result : Option CStr)
  /-- `mkstemp(template)`; `none` is the return value -1, `some n` a valid
  descriptor with the buffer rewritten to `n`. -/
  | mkstemp (template : CStr) (result : Option CStr)
  /-- `close(fd)`. -/
  | close
  /-- `fopen(path, mode)`; `ok = false` is a NULL return. -/
  | fopen (path mode : CStr) (ok : Bool)
  /-- `fwrite(data, size, nmemb, file)` returning `written`. -/
  | fwrite (data : List Byte) (size nmemb : Nat) (written : Nat)
  /-- `fclose(file)`. -/
  | fclose
  /-- `system(command)` returning `status`. -/
  | system (command : CStr) (status : Int)
  /-- `unlink(path)`; `ok` when it returns 0. -/
  | unlink (path : CStr) (ok : Bool)
  /-- `GetTempPathA(nBufferLength, buf)` returning `ret`. -/
  | GetTempPathA (nBufferLength : Nat) (ret : Nat)
  /-- `GetTempFileNameA(lpPathName, lpPrefixString, uUnique, buf)` returning `ret`. -/
  | GetTempFileNameA (lpPathName lpPrefixString : CStr) (uUnique : Nat) (ret : Nat)
  /-- `MultiByteToWideChar(codePage, dwFlags, src, cbMultiByte, dst, cchWideChar)`
  returning `ret`; `dstNull` tells whether `dst` is NULL. -/
  | MultiByteToWideChar (codePage dwFlags : Nat) (src : CStr) (cbMultiByte : Int)
      (dstNull : Bool) (cchWideChar : Nat) (ret : Nat)
  /-- `malloc(size)`; `ok = false` is a NULL return. -/
  | malloc (size : Nat) (ok : Bool)
  /-- `free(ptr)`. -/
  | free
  /-- `SystemParametersInfoW(uiAction, uiParam, pvParam, fWinIni)` returning the
  BOOL `ret`. -/
  | SystemParametersInfoW (uiAction uiParam : Nat) (pvParam : List Nat) (fWinIni : Nat)
      (ret : Int)
  /-- `DeleteFileA(path)`; `ok` when it returns non-zero. -/
  | DeleteFileA (path : CStr) (ok : Bool)
  deriving DecidableEq, Repr

/-- A call as it happened: the call and the file system it was issued on. -/
structure Event where
  call : Call
  fsBefore : FS

/-- The observable state of a run: the file system and the calls issued so far,
oldest first. -/
structure World where
  fs : FS
  log : List Event

/-- Issue `c` on the current file system and continue with the file system `fs'`. -/
def World.call (w : World) (c : Call) (fs' : FS) : World :=
  { fs := fs', log := w.log ++ [⟨c, w.fs⟩] }

/-- What a run of `main` leaves behind: the exit status and the final world. -/
structure Run where
  exit : Int
  world : World

/-- The calls of a run, in order. -/
def Run.calls (r : Run) : List Call := r.world.log.map Event.call

/-- The contents `snprintf(buf, size, ...)` leaves in `buf` when the full
formatted text is `formatted`: at most `size - 1` chars, then the NUL. -/
def snprintf (size : Nat) (formatted : CStr) : CStr := formatted.take (size - 1)

/-- The bytes that reach the file when `fwrite(data, 1, nmemb, file)` returns
`written`: the first `written` of the `nmemb` requested (a return value is never
larger than `nmemb`). -/
def fwriteBytes (data : List Byte) (nmemb written : Nat) : List Byte :=
  data.take (min written nmemb)

/-! ## macOS variant (`src/main_macos.c`) -/

namespace MacOS

/-- Results of the calls `main` makes, in program order. -/
structure Outcomes where
  /-- `none`: mkstemp returns -1; `some n`: it creates the file `n` and rewrites
  the buffer to `n`. -/
  mkstemp : Option CStr
  /-- Whether `fopen` returns a stream. -/
  fopen : Bool
  /-- Return value of `fwrite`. -/
  fwrite : Nat
  /-- Return value of `system`. -/
  system : Int
  /-- Whether the `unlink` that is issued succeeds. -/
  unlink : Bool

/-- The first argument of `getenv`. -/
def TMPDIR : CStr := "TMPDIR".toList

/-- Text produced by the format `"%s/wallpaper_XXXXXX.png"`. -/
def templateText (tmpdir : CStr) : CStr := tmpdir ++ "/wallpaper_XXXXXX.png".toList

/-- Text produced by the format
`"osascript -e 'tell application \"System Events\" to tell every desktop to set picture to \"%s\"'"`. -/
def commandText (tempFileName : CStr) : CStr :=
  "osascript -e 'tell application \"System Events\" to tell every desktop to set picture to \"".toList
    ++ tempFileName ++ "\"'".toList

/-- `main` of `src/main_macos.c`, over the embedded buffer, the environment,
the call outcomes and the initial file system. -/
def main (embedded_image : List Byte) (embedded_image_size : Nat)
    (env : CStr → Option CStr) (o : Outcomes) (fs0 : FS) : Run :=
  let w : World := ⟨fs0, []⟩
  -- const char *tmpdir = getenv("TMPDIR"); if (!tmpdir) tmpdir = "/tmp";
  let w := w.call (.getenv TMPDIR (env TMPDIR)) w.fs
  let tmpdir : CStr := match env TMPDIR with
    | some d => d
    | none => "/tmp".toList
  -- snprintf(tempFileName, sizeof(tempFileName), "%s/wallpaper_XXXXXX.png", tmpdir);
  let template := snprintf 512 (templateText tmpdir)
  -- int fd = mkstemp(tempFileName); if (fd == -1) return 1;
  match o.mkstemp with
  | none => ⟨1, w.call (.mkstemp template none) w.fs⟩
  | some tempFileName =>
    let w := w.call (.mkstemp template (some tempFileName)) (w.fs.write tempFileName [])
    -- close(fd);
    let w := w.call .close w.fs
    -- FILE *file = fopen(tempFileName, "wb");
    if o.fopen = false then
      -- unlink(tempFileName); return 1;
      let w := w.call (.fopen tempFileName "wb".toList false) w.fs
      let w := w.call (.unlink tempFileName o.unlink)
        (if o.unlink then w.fs.remove tempFileName else w.fs)
      ⟨1, w⟩
    else
      let w := w.call (.fopen tempFileName "wb".toList true) (w.fs.write tempFileName [])
      -- fwrite(embedded_image, 1, embedded_image_size, file); fclose(file);
      let w := w.call (.fwrite embedded_image 1 embedded_image_size o.fwrite)
        (w.fs.write tempFileName (fwriteBytes embedded_image embedded_image_size o.fwrite))
      let w := w.call .fclose w.fs
      -- snprintf(command, sizeof(command), "osascript ...\"%s\"'", tempFileName);
      let command := snprintf 1024 (commandText tempFileName)
      -- int result = system(command);
      let w := w.call (.system command o.system) w.fs
      -- unlink(tempFileName);
      let w := w.call (.unlink tempFileName o.unlink)
        (if o.unlink then w.fs.remove tempFileName else w.fs)
      -- return (result == 0) ? 0 : 1;
      ⟨if o.system = 0 then 0 else 1, w⟩

end MacOS

/-! ## Windows variant (`src/main.c`) -/

namespace Windows

/-- The constants `main` takes from `<windows.h>`. -/
structure Consts where
  MAX_PATH : Nat
  CP_UTF8 : Nat
  SPI_SETDESKWALLPAPER : Nat
  SPIF_UPDATEINIFILE : Nat
  SPIF_SENDCHANGE : Nat

/-- The values the Windows SDK headers give these constants. -/
def sdk : Consts :=
  { MAX_PATH := 260, CP_UTF8 := 65001, SPI_SETDESKWALLPAPER := 0x0014,
    SPIF_UPDATEINIFILE := 0x01, SPIF_SENDCHANGE := 0x02 }

/-- Results of the calls `main` makes, in program order. -/
structure Outcomes where
  /-- Return value of `GetTempPathA`. -/
  GetTempPathA : Nat
  /-- What `GetTempPathA` leaves in `tempPath`. -/
  tempPath : CStr
  /-- Return value of `GetTempFileNameA`. -/
  GetTempFileNameA : Nat
  /-- What `GetTempFileNameA` leaves in `tempFileName`: with `uUnique = 0` and a
  non-zero return value, the name of the empty file it has created. -/
  tempFileName : CStr
  /-- Whether `fopen` returns a stream. -/
  fopen : Bool
  /-- Return value of `fwrite`. -/
  fwrite : Nat
  /-- Return value of the sizing call of `MultiByteToWideChar` (a count of wide
  chars, never negative). -/
  widePathLen : Nat
  /-- Whether `malloc` returns a buffer. -/
  malloc : Bool
  /-- Return value of the converting call of `MultiByteToWideChar`. -/
  MultiByteToWideChar : Nat
  /-- The conversion `MultiByteToWideChar` performs: the wide string written to
  the destination buffer for a given source string. -/
  wide : CStr → List Nat
  /-- The BOOL returned by `SystemParametersInfoW`. -/
  SystemParametersInfoW : Int
  /-- Whether the `DeleteFileA` that is issued succeeds. -/
  DeleteFileA : Bool

/-- `sizeof(wchar_t)` on Windows. -/
def sizeof_wchar_t : Nat := 2

/-- `main` of `src/main.c`, over the header constants, the embedded buffer, the
call outcomes and the initial file system. -/
def main (K : Consts) (embedded_image : List Byte) (embedded_image_size : Nat)
    (o : Outcomes) (fs0 : FS) : Run :=
  let w : World := ⟨fs0, []⟩
  -- if (GetTempPathA(MAX_PATH, tempPath) == 0) return 1;
  let w := w.call (.GetTempPathA K.MAX_PATH o.GetTempPathA) w.fs
  if o.GetTempPathA = 0 then ⟨1, w⟩ else
  let tempPath := o.tempPath
  -- if (GetTempFileNameA(tempPath, "wall", 0, tempFileName) == 0) return 1;
  let w := w.call (.GetTempFileNameA tempPath "wall".toList 0 o.GetTempFileNameA)
    (if o.GetTempFileNameA = 0 then w.fs else w.fs.write o.tempFileName [])
  if o.GetTempFileNameA = 0 then ⟨1, w⟩ else
  let tempFileName := o.tempFileName
  -- FILE *file = fopen(tempFileName, "wb"); if (!file) return 1;
  if o.fopen = false then ⟨1, w.call (.fopen tempFileName "wb".toList false) w.fs⟩ else
  let w := w.call (.fopen tempFileName "wb".toList true) (w.fs.write tempFileName [])
  -- fwrite(embedded_image, 1, embedded_image_size, file); fclose(file);
  let w := w.call (.fwrite embedded_image 1 embedded_image_size o.fwrite)
    (w.fs.write tempFileName (fwriteBytes embedded_image embedded_image_size o.fwrite))
  let w := w.call .fclose w.fs
  -- int widePathLen = MultiByteToWideChar(CP_UTF8, 0, tempFileName, -1, NULL, 0);
  let widePathLen := o.widePathLen
  let w := w.call (.MultiByteToWideChar K.CP_UTF8 0 tempFileName (-1) true 0 widePathLen) w.fs
  let DeleteFile (w : World) : World :=
    w.call (.DeleteFileA tempFileName o.DeleteFileA)
      (if o.DeleteFileA then w.fs.remove tempFileName else w.fs)
  -- if (widePathLen == 0) { DeleteFileA(tempFileName); return 1; }
  if widePathLen = 0 then ⟨1, DeleteFile w⟩ else
  -- wchar_t *widePath = (wchar_t *)malloc(widePathLen * sizeof(wchar_t));
  let w := w.call (.malloc (widePathLen * sizeof_wchar_t) o.malloc) w.fs
  -- if (!widePath) { DeleteFileA(tempFileName); return 1; }
  if o.malloc = false then ⟨1, DeleteFile w⟩ else
  -- if (MultiByteToWideChar(CP_UTF8, 0, tempFileName, -1, widePath, widePathLen) == 0)
  let w := w.call
    (.MultiByteToWideChar K.CP_UTF8 0 tempFileName (-1) false widePathLen o.MultiByteToWideChar)
    w.fs
  --   { free(widePath); DeleteFileA(tempFileName); return 1; }
  if o.MultiByteToWideChar = 0 then ⟨1, DeleteFile (w.call .free w.fs)⟩ else
  let widePath := o.wide tempFileName
  -- BOOL result = SystemParametersInfoW(SPI_SETDESKWALLPAPER, 0, widePath,
  --                                     SPIF_UPDATEINIFILE | SPIF_SENDCHANGE);
  let result := o.SystemParametersInfoW
  let w := w.call
    (.SystemParametersInfoW K.SPI_SETDESKWALLPAPER 0 widePath
      (K.SPIF_UPDATEINIFILE ||| K.SPIF_SENDCHANGE) result)
    w.fs
  -- free(widePath); DeleteFileA(tempFileName);
  let w := w.call .free w.fs
  let w := DeleteFile w
  -- return result ? 0 : 1;
  ⟨if result ≠ 0 then 0 else 1, w⟩

end Windows

/-! ## Vocabulary of the properties -/

/-- The call hands a file to the platform wallpaper facility. -/
def Call.isFacility : Call → Bool
  | .system .. => true
  | .SystemParametersInfoW .. => true
  | _ => false

/-- The call deletes a file. -/
def Call.isDelete : Call → Bool
  | .unlink .. => true
  | .DeleteFileA .. => true
  | _ => false

/-- The call releases the conversion buffer. -/
def Call.isFree : Call → Bool
  | .free => true
  | _ => false

/-- The call is one of the steps on which the exit status depends, and it
reported failure. -/
def Call.failed : Call → Bool
  | .mkstemp _ r => r.isNone
  | .fopen _ _ ok => !ok
  | .system _ status => decide (status ≠ 0)
  | .GetTempPathA _ ret => decide (ret = 0)
  | .GetTempFileNameA _ _ _ ret => decide (ret = 0)
  | .MultiByteToWideChar _ _ _ _ _ _ ret => decide (ret = 0)
  | .malloc _ ok => !ok
  | .SystemParametersInfoW _ _ _ _ ret => decide (ret = 0)
  | _ => false

/-- After a step that failed, nothing is called but the release of the
conversion buffer and the deletion of the temp file. -/
def stopsAtFailure : List Call → Bool
  | [] => true
  | c :: rest =>
    (if c.failed then rest.all (fun e => e.isDelete || e.isFree) else true)
      && stopsAtFailure rest

/-- The events of a run in which the wallpaper facility is invoked. -/
def Run.facilityEvents (r : Run) : List Event :=
  r.world.log.filter (fun e => e.call.isFacility)


/-- The templates handed to `mkstemp`, in call order. -/
def mkstempTemplates : List Call → List CStr
  | [] => []
  | .mkstemp t _ :: rest => t :: mkstempTemplates rest
  | _ :: rest => mkstempTemplates rest

/-- The variable names handed to `getenv`, in call order. -/
def getenvNames : List Call → List CStr
  | [] => []
  | .getenv v _ :: rest => v :: getenvNames rest
  | _ :: rest => getenvNames rest

/-- The strings handed to `system`, in call order. -/
def systemCommands : List Call → List CStr
  | [] => []
  | .system c _ :: rest => c :: systemCommands rest
  | _ :: rest => systemCommands rest

/-- The last six chars of a string. -/
def lastSix (s : CStr) : CStr := s.drop (s.length - 6)

/-! ## Sample inputs -/

/-- An empty file system. -/
def emptyFS : FS := fun _ => none

/-- A file system in which the temp names used below already hold stale bytes. -/
def staleFS : FS := fun p =>
  if p = "/tmp/wallpaper_XXXXXX.png".toList ∨ p = "C:\\Temp\\wal1A2B.tmp".toList
  then some [7, 7, 7] else none

/-- The buffer of the end-to-end example. -/
def tenBytes : List Byte := [1, 2, 3, 4, 5, 6, 7, 8, 9, 10]

/-- The environment in which `TMPDIR` is not set. -/
def noEnv : CStr → Option CStr := fun _ => none

/-- An environment in which `TMPDIR` is set to the empty string and nothing else
is set. -/
def emptyTmpdirEnv : CStr → Option CStr := fun v => if v = "TMPDIR".toList then some [] else none

/-- An environment that agrees with `emptyTmpdirEnv` on `TMPDIR` only. -/
def otherEnv : CStr → Option CStr :=
  fun v => if v = "TMPDIR".toList then some [] else some "/var/tmp".toList

/-- A macOS run in which every call succeeds and `fwrite` writes `k` bytes; the
name `mkstemp` reports is the template with `TMPDIR` unset, left as it is. -/
def macAllOk (k : Nat) : MacOS.Outcomes :=
  { mkstemp := some "/tmp/wallpaper_XXXXXX.png".toList, fopen := true, fwrite := k,
    system := 0, unlink := true }

/-- A Windows run in which every call succeeds and `fwrite` writes `k` bytes. -/
def winAllOk (k : Nat) : Windows.Outcomes :=
  { GetTempPathA := 8, tempPath := "C:\\Temp\\".toList,
    GetTempFileNameA := 6699, tempFileName := "C:\\Temp\\wal1A2B.tmp".toList,
    fopen := true, fwrite := k, widePathLen := 20, malloc := true,
    MultiByteToWideChar := 20, wide := fun s => s.map Char.toNat ++ [0],
    SystemParametersInfoW := 1, DeleteFileA := true }

/-! ## Exit status (both variants) -/

/-- Exit status and call discipline of the macOS variant. -/
theorem macos_main_exit (img : List Byte) (n : Nat) (env : CStr → Option CStr)
    (o : MacOS.Outcomes) (fs0 : FS) :
    ((MacOS.main img n env o fs0).exit = 0 ∨ (MacOS.main img n env o fs0).exit = 1) ∧
    ((MacOS.main img n env o fs0).exit = 0 ↔
      o.mkstemp ≠ none ∧ o.fopen = true ∧ o.system = 0) ∧
    stopsAtFailure (MacOS.main img n env o fs0).calls = true := by
  obtain ⟨m, f, wr, s, u⟩ := o
  cases m <;> cases f <;> by_cases hs : s = 0 <;>
    simp [MacOS.main, World.call, Run.calls, stopsAtFailure, Call.failed, Call.isDelete,
      Call.isFree, hs]

/-- Exit status and call discipline of the Windows variant. -/
theorem windows_main_exit (K : Windows.Consts) (img : List Byte) (n : Nat)
    (o : Windows.Outcomes) (fs0 : FS) :
    ((Windows.main K img n o fs0).exit = 0 ∨ (Windows.main K img n o fs0).exit = 1) ∧
    ((Windows.main K img n o fs0).exit = 0 ↔
      o.GetTempPathA ≠ 0 ∧ o.GetTempFileNameA ≠ 0 ∧ o.fopen = true ∧ o.widePathLen ≠ 0 ∧
        o.malloc = true ∧ o.MultiByteToWideChar ≠ 0 ∧ o.SystemParametersInfoW ≠ 0) ∧
    stopsAtFailure (Windows.main K img n o fs0).calls = true := by
  by_cases h1 : o.GetTempPathA = 0 <;> by_cases h2 : o.GetTempFileNameA = 0 <;>
  cases h3 : o.fopen <;> by_cases h4 : o.widePathLen = 0 <;> cases h5 : o.malloc <;>
  by_cases h6 : o.MultiByteToWideChar = 0 <;> by_cases h7 : o.SystemParametersInfoW = 0 <;>
    simp [Windows.main, World.call, Run.calls, stopsAtFailure, Call.failed, Call.isDelete,
      Call.isFree, h1, h2, h3, h4, h5, h6, h7]

/-- C2: in both variants `main` returns 0 or 1; it returns 0 exactly when every
step the exit status depends on succeeded (macOS: `mkstemp`, `fopen`, `system`;
Windows: `GetTempPathA`, `GetTempFileNameA`, `fopen`, both `MultiByteToWideChar`
calls, `malloc`, `SystemParametersInfoW`); and after the first of these steps
that fails nothing more is called except the release of the conversion buffer
and the deletion of the temp file. -/
theorem C2_exit_status (K : Windows.Consts) (img : List Byte) (n : Nat)
    (env : CStr → Option CStr) (om : MacOS.Outcomes) (ow : Windows.Outcomes) (fs0 : FS) :
    (((MacOS.main img n env om fs0).exit = 0 ∨ (MacOS.main img n env om fs0).exit = 1) ∧
      ((MacOS.main img n env om fs0).exit = 0 ↔
        om.mkstemp ≠ none ∧ om.fopen = true ∧ om.system = 0) ∧
      stopsAtFailure (MacOS.main img n env om fs0).calls = true) ∧
    (((Windows.main K img n ow fs0).exit = 0 ∨ (Windows.main K img n ow fs0).exit = 1) ∧
      ((Windows.main K img n ow fs0).exit = 0 ↔
        ow.GetTempPathA ≠ 0 ∧ ow.GetTempFileNameA ≠ 0 ∧ ow.fopen = true ∧
          ow.widePathLen ≠ 0 ∧ ow.malloc = true ∧ ow.MultiByteToWideChar ≠ 0 ∧
          ow.SystemParametersInfoW ≠ 0) ∧
      stopsAtFailure (Windows.main K img n ow fs0).calls = true) :=
  ⟨macos_main_exit img n env om fs0, windows_main_exit K img n ow fs0⟩

/-! ## Deletion of the temp file -/

/-- In the macOS variant a temp file that `mkstemp` created is gone when `main`
returns, on every path, provided the `unlink` succeeds. -/
theorem macos_main_removes_temp (img : List Byte) (n : Nat) (env : CStr → Option CStr)
    (o : MacOS.Outcomes) (fs0 : FS) (name : CStr)
    (hm : o.mkstemp = some name) (hu : o.unlink = true) :
    (MacOS.main img n env o fs0).world.fs name = none := by
  cases hf : o.fopen <;> simp [MacOS.main, World.call, FS.remove, hm, hu, hf]

/-- In the Windows variant a temp file that `GetTempFileNameA` created is gone
when `main` returns, provided `fopen` succeeded and the `DeleteFileA` succeeds. -/
theorem windows_main_removes_temp_after_fopen (K : Windows.Consts) (img : List Byte) (n : Nat)
    (o : Windows.Outcomes) (fs0 : FS)
    (h1 : o.GetTempPathA ≠ 0) (h2 : o.GetTempFileNameA ≠ 0) (h3 : o.fopen = true)
    (hd : o.DeleteFileA = true) :
    (Windows.main K img n o fs0).world.fs o.tempFileName = none := by
  by_cases h4 : o.widePathLen = 0 <;> cases h5 : o.malloc <;>
  by_cases h6 : o.MultiByteToWideChar = 0 <;>
    simp [Windows.main, World.call, FS.remove, h1, h2, h3, h4, h5, h6, hd]

/-- C1 (the code departs from it): in the Windows variant, when `GetTempPathA`
and `GetTempFileNameA` succeed, so that the temp file has been created, and
`fopen` then fails, `main` returns 1 without issuing any delete call and the
temp file still exists. -/
theorem C1_windows_fopen_failure_keeps_file :
    (winAllOk 0).GetTempFileNameA ≠ 0 ∧
    (Windows.main Windows.sdk [0] 0 { winAllOk 0 with fopen := false } emptyFS).exit = 1 ∧
    (Windows.main Windows.sdk [0] 0 { winAllOk 0 with fopen := false } emptyFS).calls.any
      Call.isDelete = false ∧
    (Windows.main Windows.sdk [0] 0 { winAllOk 0 with fopen := false } emptyFS).world.fs
      "C:\\Temp\\wal1A2B.tmp".toList = some [] := by
  decide


/-! ## The write step -/

/-- C3 as stated fails: a macOS run on the 3-byte buffer `[1, 2, 3]` in which
`fwrite` writes only 1 byte and every other call succeeds still invokes the
wallpaper facility, on a file holding the single byte `1`, and exits with 0. -/
theorem C3_short_write_counterexample :
    (macAllOk 1).fwrite < 3 ∧
    (MacOS.main [1, 2, 3] 3 noEnv (macAllOk 1) emptyFS).exit = 0 ∧
    ((MacOS.main [1, 2, 3] 3 noEnv (macAllOk 1) emptyFS).facilityEvents.map
      (fun e => e.fsBefore "/tmp/wallpaper_XXXXXX.png".toList)) = [some [1]] := by
  decide

/-- C3, amended: in both variants, when `fopen` fails `main` exits with 1 and
the wallpaper facility is not invoked; the value `fwrite` returns is not
inspected: whatever it is (`k`), the exit status and the calls made to the
wallpaper facility are those of the run in which `fwrite` returns the full
`embedded_image_size`. -/
theorem C3_write_step_amended (K : Windows.Consts) (img : List Byte) (n : Nat)
    (env : CStr → Option CStr) (om : MacOS.Outcomes) (ow : Windows.Outcomes) (fs0 : FS)
    (k : Nat) :
    ((om.fopen = false →
        (MacOS.main img n env om fs0).exit = 1 ∧
        (MacOS.main img n env om fs0).calls.any Call.isFacility = false) ∧
      (MacOS.main img n env { om with fwrite := k } fs0).exit =
        (MacOS.main img n env { om with fwrite := n } fs0).exit ∧
      (MacOS.main img n env { om with fwrite := k } fs0).calls.filter Call.isFacility =
        (MacOS.main img n env { om with fwrite := n } fs0).calls.filter Call.isFacility) ∧
    ((ow.fopen = false →
        (Windows.main K img n ow fs0).exit = 1 ∧
        (Windows.main K img n ow fs0).calls.any Call.isFacility = false) ∧
      (Windows.main K img n { ow with fwrite := k } fs0).exit =
        (Windows.main K img n { ow with fwrite := n } fs0).exit ∧
      (Windows.main K img n { ow with fwrite := k } fs0).calls.filter Call.isFacility =
        (Windows.main K img n { ow with fwrite := n } fs0).calls.filter Call.isFacility) := by
  refine ⟨⟨?_, ?_, ?_⟩, ⟨?_, ?_, ?_⟩⟩
  · intro hf
    cases hm : om.mkstemp <;>
      simp [MacOS.main, World.call, Run.calls, Call.isFacility, hm, hf]
  · cases hm : om.mkstemp <;> cases hf : om.fopen <;> simp [MacOS.main, hm, hf]
  · cases hm : om.mkstemp <;> cases hf : om.fopen <;>
      simp [MacOS.main, World.call, Run.calls, Call.isFacility, List.filter, hm, hf]
  · intro hf
    by_cases h1 : ow.GetTempPathA = 0 <;> by_cases h2 : ow.GetTempFileNameA = 0 <;>
      simp [Windows.main, World.call, Run.calls, Call.isFacility, h1, h2, hf]
  · by_cases h1 : ow.GetTempPathA = 0 <;> by_cases h2 : ow.GetTempFileNameA = 0 <;>
    cases h3 : ow.fopen <;> by_cases h4 : ow.widePathLen = 0 <;> cases h5 : ow.malloc <;>
    by_cases h6 : ow.MultiByteToWideChar = 0 <;>
      simp [Windows.main, h1, h2, h3, h4, h5, h6]
  · by_cases h1 : ow.GetTempPathA = 0 <;> by_cases h2 : ow.GetTempFileNameA = 0 <;>
    cases h3 : ow.fopen <;> by_cases h4 : ow.widePathLen = 0 <;> cases h5 : ow.malloc <;>
    by_cases h6 : ow.MultiByteToWideChar = 0 <;>
      simp [Windows.main, World.call, Run.calls, Call.isFacility, List.filter,
        h1, h2, h3, h4, h5, h6]

/-- Instance of `C3_write_step_amended`: runs in which `fopen` fails, on the
3-byte buffer with a short write of 1 byte. -/
theorem C3_write_step_amended_witness :
    (({ macAllOk 3 with fopen := false } : MacOS.Outcomes).fopen = false ∧
      (MacOS.main [1, 2, 3] 3 noEnv { macAllOk 3 with fopen := false } emptyFS).exit = 1 ∧
      (MacOS.main [1, 2, 3] 3 noEnv { macAllOk 3 with fopen := false } emptyFS).calls.any
        Call.isFacility = false) ∧
    (({ winAllOk 3 with fopen := false } : Windows.Outcomes).fopen = false ∧
      (Windows.main Windows.sdk [1, 2, 3] 3 { winAllOk 3 with fopen := false } emptyFS).exit
        = 1 ∧
      (Windows.main Windows.sdk [1, 2, 3] 3 { winAllOk 3 with fopen := false }
        emptyFS).calls.any Call.isFacility = false) :=
  ⟨⟨rfl, (C3_write_step_amended Windows.sdk [1, 2, 3] 3 noEnv
        { macAllOk 3 with fopen := false } { winAllOk 3 with fopen := false } emptyFS 1).1.1
        rfl⟩,
    ⟨rfl, (C3_write_step_amended Windows.sdk [1, 2, 3] 3 noEnv
        { macAllOk 3 with fopen := false } { winAllOk 3 with fopen := false } emptyFS 1).2.1
        rfl⟩⟩

/-! ## Failure of the wallpaper facility -/

/-- C4: in both variants, in a run in which the temp file was created and opened
and the wallpaper facility is reached and reports failure (`system` returns
non-zero; `SystemParametersInfoW` returns FALSE), `main` returns 1, the facility
call has been made, the last call `main` makes is the delete call on the temp
file path, and when that delete succeeds the path does not exist afterwards. -/
theorem C4_facility_failure (K : Windows.Consts) (img : List Byte) (n : Nat)
    (env : CStr → Option CStr) (om : MacOS.Outcomes) (ow : Windows.Outcomes) (fs0 : FS)
    (name : CStr) :
    (om.mkstemp = some name → om.fopen = true → om.system ≠ 0 →
      (MacOS.main img n env om fs0).exit = 1 ∧
      (MacOS.main img n env om fs0).calls.any Call.isFacility = true ∧
      (MacOS.main img n env om fs0).calls.getLast? = some (.unlink name om.unlink) ∧
      (om.unlink = true → (MacOS.main img n env om fs0).world.fs name = none)) ∧
    (ow.GetTempPathA ≠ 0 → ow.GetTempFileNameA ≠ 0 → ow.fopen = true →
      ow.widePathLen ≠ 0 → ow.malloc = true → ow.MultiByteToWideChar ≠ 0 →
      ow.SystemParametersInfoW = 0 →
      (Windows.main K img n ow fs0).exit = 1 ∧
      (Windows.main K img n ow fs0).calls.any Call.isFacility = true ∧
      (Windows.main K img n ow fs0).calls.getLast? =
        some (.DeleteFileA ow.tempFileName ow.DeleteFileA) ∧
      (ow.DeleteFileA = true →
        (Windows.main K img n ow fs0).world.fs ow.tempFileName = none)) := by
  constructor
  · intro hm hf hs
    refine ⟨?_, ?_, ?_, ?_⟩
    · simp [MacOS.main, hm, hf, hs]
    · simp [MacOS.main, World.call, Run.calls, Call.isFacility, hm, hf]
    · simp [MacOS.main, World.call, Run.calls, hm, hf]
    · intro hu
      simp [MacOS.main, World.call, FS.remove, hm, hf, hu]
  · intro h1 h2 h3 h4 h5 h6 h7
    refine ⟨?_, ?_, ?_, ?_⟩
    · simp [Windows.main, h1, h2, h3, h4, h5, h6, h7]
    · simp [Windows.main, World.call, Run.calls, Call.isFacility, h1, h2, h3, h4, h5, h6]
    · simp [Windows.main, World.call, Run.calls, h1, h2, h3, h4, h5, h6]
    · intro hd
      simp [Windows.main, World.call, FS.remove, h1, h2, h3, h4, h5, h6, hd]

/-- Instance of `C4_facility_failure`: `system` returns 256, and
`SystemParametersInfoW` returns FALSE, on a file system where the temp names
held stale bytes. -/
theorem C4_facility_failure_witness :
    ((MacOS.main tenBytes 10 noEnv { macAllOk 10 with system := 256 } staleFS).exit = 1 ∧
      (MacOS.main tenBytes 10 noEnv { macAllOk 10 with system := 256 } staleFS).world.fs
        "/tmp/wallpaper_XXXXXX.png".toList = none) ∧
    ((Windows.main Windows.sdk tenBytes 10 { winAllOk 10 with SystemParametersInfoW := 0 }
        staleFS).exit = 1 ∧
      (Windows.main Windows.sdk tenBytes 10 { winAllOk 10 with SystemParametersInfoW := 0 }
        staleFS).world.fs "C:\\Temp\\wal1A2B.tmp".toList = none) :=
  ⟨⟨((C4_facility_failure Windows.sdk tenBytes 10 noEnv { macAllOk 10 with system := 256 }
        { winAllOk 10 with SystemParametersInfoW := 0 } staleFS
        "/tmp/wallpaper_XXXXXX.png".toList).1 rfl rfl (by decide)).1,
      ((C4_facility_failure Windows.sdk tenBytes 10 noEnv { macAllOk 10 with system := 256 }
        { winAllOk 10 with SystemParametersInfoW := 0 } staleFS
        "/tmp/wallpaper_XXXXXX.png".toList).1 rfl rfl (by decide)).2.2.2 rfl⟩,
    ⟨((C4_facility_failure Windows.sdk tenBytes 10 noEnv { macAllOk 10 with system := 256 }
        { winAllOk 10 with SystemParametersInfoW := 0 } staleFS
        "/tmp/wallpaper_XXXXXX.png".toList).2 (by decide) (by decide) rfl (by decide) rfl
        (by decide) rfl).1,
      ((C4_facility_failure Windows.sdk tenBytes 10 noEnv { macAllOk 10 with system := 256 }
        { winAllOk 10 with SystemParametersInfoW := 0 } staleFS
        "/tmp/wallpaper_XXXXXX.png".toList).2 (by decide) (by decide) rfl (by decide) rfl
        (by decide) rfl).2.2.2 rfl⟩⟩


/-! ## The successful run -/

/-- A bitwise or contains every bit of its left operand. -/
theorem or_and_left_self (a b : Nat) : (a ||| b) &&& a = a := by
  apply Nat.eq_of_testBit_eq
  intro i
  simp only [Nat.testBit_and, Nat.testBit_or]
  cases a.testBit i <;> cases b.testBit i <;> rfl

/-- A bitwise or contains every bit of its right operand. -/
theorem or_and_right_self (a b : Nat) : (a ||| b) &&& b = b := by
  apply Nat.eq_of_testBit_eq
  intro i
  simp only [Nat.testBit_and, Nat.testBit_or]
  cases a.testBit i <;> cases b.testBit i <;> rfl

/-- C6: in the Windows variant every call with which `main` reaches the
wallpaper facility is `SystemParametersInfoW` with action
`SPI_SETDESKWALLPAPER`, `uiParam` 0, the wide conversion of the name
`GetTempFileNameA` produced as path argument, and a flags word in which the
bits of `SPIF_UPDATEINIFILE` and of `SPIF_SENDCHANGE` are all set and no other
bit is set. -/
theorem C6_facility_arguments (K : Windows.Consts) (img : List Byte) (n : Nat)
    (o : Windows.Outcomes) (fs0 : FS) (c : Call)
    (hc : c ∈ (Windows.main K img n o fs0).calls) (hf : c.isFacility = true) :
    ∃ flags ret,
      c = .SystemParametersInfoW K.SPI_SETDESKWALLPAPER 0 (o.wide o.tempFileName) flags ret ∧
      flags &&& K.SPIF_UPDATEINIFILE = K.SPIF_UPDATEINIFILE ∧
      flags &&& K.SPIF_SENDCHANGE = K.SPIF_SENDCHANGE ∧
      ∀ i, flags.testBit i = true →
        K.SPIF_UPDATEINIFILE.testBit i = true ∨ K.SPIF_SENDCHANGE.testBit i = true := by
  refine ⟨K.SPIF_UPDATEINIFILE ||| K.SPIF_SENDCHANGE, o.SystemParametersInfoW, ?_,
    or_and_left_self _ _, or_and_right_self _ _, ?_⟩
  · revert hc
    by_cases h1 : o.GetTempPathA = 0 <;> by_cases h2 : o.GetTempFileNameA = 0 <;>
    cases h3 : o.fopen <;> by_cases h4 : o.widePathLen = 0 <;> cases h5 : o.malloc <;>
    by_cases h6 : o.MultiByteToWideChar = 0 <;>
      simp [Windows.main, World.call, Run.calls, h1, h2, h3, h4, h5, h6] <;>
      intro hc <;> rcases hc with hc | hc | hc | hc | hc | hc | hc | hc | hc | hc | hc <;>
      simp_all [Call.isFacility]
  · intro i hi
    simpa [Nat.testBit_or] using hi

/-- Instance of `C6_facility_arguments`: with the SDK values of the constants the
call is `SystemParametersInfoW(0x14, 0, widePath, 3)`. -/
theorem C6_facility_arguments_witness :
    Call.SystemParametersInfoW 0x14 0 ((winAllOk 0).wide "C:\\Temp\\wal1A2B.tmp".toList) 3 1 ∈
      (Windows.main Windows.sdk [0] 0 (winAllOk 0) emptyFS).calls ∧
    ∃ flags ret,
      Call.SystemParametersInfoW 0x14 0 ((winAllOk 0).wide "C:\\Temp\\wal1A2B.tmp".toList) 3 1 =
        .SystemParametersInfoW Windows.sdk.SPI_SETDESKWALLPAPER 0
          ((winAllOk 0).wide (winAllOk 0).tempFileName) flags ret ∧
      flags &&& Windows.sdk.SPIF_UPDATEINIFILE = Windows.sdk.SPIF_UPDATEINIFILE ∧
      flags &&& Windows.sdk.SPIF_SENDCHANGE = Windows.sdk.SPIF_SENDCHANGE ∧
      ∀ i, flags.testBit i = true →
        Windows.sdk.SPIF_UPDATEINIFILE.testBit i = true ∨
          Windows.sdk.SPIF_SENDCHANGE.testBit i = true :=
  ⟨by decide,
    C6_facility_arguments Windows.sdk [0] 0 (winAllOk 0) emptyFS
      (.SystemParametersInfoW 0x14 0 ((winAllOk 0).wide "C:\\Temp\\wal1A2B.tmp".toList) 3 1)
      (by decide) rfl⟩


/-! ## The empty embedded image -/

/-- C7 as stated fails in the Windows variant: with `embedded_image_size = 0`,
`GetTempPathA`, `GetTempFileNameA` and `fopen` succeeding and
`SystemParametersInfoW` set to succeed, a `malloc` that returns NULL makes `main`
return 1 without the wallpaper facility being invoked. -/
theorem C7_windows_malloc_counterexample :
    ({ winAllOk 0 with malloc := false } : Windows.Outcomes).GetTempPathA ≠ 0 ∧
    ({ winAllOk 0 with malloc := false } : Windows.Outcomes).GetTempFileNameA ≠ 0 ∧
    ({ winAllOk 0 with malloc := false } : Windows.Outcomes).fopen = true ∧
    ({ winAllOk 0 with malloc := false } : Windows.Outcomes).SystemParametersInfoW ≠ 0 ∧
    (Windows.main Windows.sdk [0] 0 { winAllOk 0 with malloc := false } emptyFS).calls.any
      Call.isFacility = false ∧
    (Windows.main Windows.sdk [0] 0 { winAllOk 0 with malloc := false } emptyFS).exit = 1 := by
  decide

/-- C7, amended: when `embedded_image_size` is 0 and temp-path acquisition and
`fopen` succeed (macOS: the name `mkstemp` produced fits the 512-byte buffer;
Windows: moreover both `MultiByteToWideChar` calls and `malloc` succeed), the
wallpaper facility is invoked exactly once, with the temp file path, on a file
system in which that path holds a zero-length file, whatever `fwrite` returns;
and `main` returns 0 exactly when the facility reports success. -/
theorem C7_empty_image_amended (K : Windows.Consts) (img : List Byte)
    (env : CStr → Option CStr) (om : MacOS.Outcomes) (ow : Windows.Outcomes) (fs0 : FS)
    (name : CStr) :
    (om.mkstemp = some name → name.length ≤ 511 → om.fopen = true →
      (MacOS.main img 0 env om fs0).facilityEvents.map Event.call =
        [.system (MacOS.commandText name) om.system] ∧
      (MacOS.main img 0 env om fs0).facilityEvents.map (fun e => e.fsBefore name) =
        [some []] ∧
      ((MacOS.main img 0 env om fs0).exit = 0 ↔ om.system = 0)) ∧
    (ow.GetTempPathA ≠ 0 → ow.GetTempFileNameA ≠ 0 → ow.fopen = true →
      ow.widePathLen ≠ 0 → ow.malloc = true → ow.MultiByteToWideChar ≠ 0 →
      (Windows.main K img 0 ow fs0).facilityEvents.map Event.call =
        [.SystemParametersInfoW K.SPI_SETDESKWALLPAPER 0 (ow.wide ow.tempFileName)
          (K.SPIF_UPDATEINIFILE ||| K.SPIF_SENDCHANGE) ow.SystemParametersInfoW] ∧
      (Windows.main K img 0 ow fs0).facilityEvents.map (fun e => e.fsBefore ow.tempFileName) =
        [some []] ∧
      ((Windows.main K img 0 ow fs0).exit = 0 ↔ ow.SystemParametersInfoW ≠ 0)) := by
  constructor
  · intro hm hl hf
    have hc : (MacOS.commandText name).length ≤ 1023 := by
      simp [MacOS.commandText]; omega
    refine ⟨?_, ?_, ?_⟩
    · simp [MacOS.main, World.call, Run.facilityEvents, Call.isFacility, List.filter,
        snprintf, List.take_of_length_le hc, hm, hf]
    · simp [MacOS.main, World.call, Run.facilityEvents, Call.isFacility, List.filter,
        FS.write, fwriteBytes, hm, hf]
    · simp [MacOS.main, hm, hf]
  · intro h1 h2 h3 h4 h5 h6
    refine ⟨?_, ?_, ?_⟩
    · simp [Windows.main, World.call, Run.facilityEvents, Call.isFacility, List.filter,
        h1, h2, h3, h4, h5, h6]
    · simp [Windows.main, World.call, Run.facilityEvents, Call.isFacility, List.filter,
        FS.write, fwriteBytes, h1, h2, h3, h4, h5, h6]
    · simp [Windows.main, h1, h2, h3, h4, h5, h6]

/-- Instance of `C7_empty_image_amended`: the buffer as shipped (`{0x00}` with
size 0), every call succeeding, on a file system in which the temp names held
stale bytes. -/
theorem C7_empty_image_amended_witness :
    ((MacOS.main [0] 0 noEnv (macAllOk 0) staleFS).facilityEvents.map
        (fun e => e.fsBefore "/tmp/wallpaper_XXXXXX.png".toList) = [some []] ∧
      (MacOS.main [0] 0 noEnv (macAllOk 0) staleFS).exit = 0) ∧
    ((Windows.main Windows.sdk [0] 0 (winAllOk 0) staleFS).facilityEvents.map
        (fun e => e.fsBefore "C:\\Temp\\wal1A2B.tmp".toList) = [some []] ∧
      (Windows.main Windows.sdk [0] 0 (winAllOk 0) staleFS).exit = 0) :=
  ⟨⟨((C7_empty_image_amended Windows.sdk [0] noEnv (macAllOk 0) (winAllOk 0) staleFS
        "/tmp/wallpaper_XXXXXX.png".toList).1 rfl (by decide) rfl).2.1,
      ((C7_empty_image_amended Windows.sdk [0] noEnv (macAllOk 0) (winAllOk 0) staleFS
        "/tmp/wallpaper_XXXXXX.png".toList).1 rfl (by decide) rfl).2.2.mpr rfl⟩,
    ⟨((C7_empty_image_amended Windows.sdk [0] noEnv (macAllOk 0) (winAllOk 0) staleFS
        "/tmp/wallpaper_XXXXXX.png".toList).2 (by decide) (by decide) rfl (by decide) rfl
        (by decide)).2.1,
      ((C7_empty_image_amended Windows.sdk [0] noEnv (macAllOk 0) (winAllOk 0) staleFS
        "/tmp/wallpaper_XXXXXX.png".toList).2 (by decide) (by decide) rfl (by decide) rfl
        (by decide)).2.2.mpr (by decide)⟩⟩

/-! ## The temp file name of the macOS variant -/

/-- C8: in the macOS variant the only variable handed to `getenv` is `TMPDIR`,
and two environments that agree on `TMPDIR` give the same run; the directory
used is the value of `TMPDIR` when it is set (the empty string included) and
`"/tmp"` when it is not: the template handed to `mkstemp` is the first 511 chars
of that directory followed by `"/wallpaper_XXXXXX.png"`; and when the directory
has at most 489 bytes the template is that text in full, untruncated. -/
theorem C8_tmpdir_and_template (img : List Byte) (n : Nat) (env env2 : CStr → Option CStr)
    (o : MacOS.Outcomes) (fs0 : FS) :
    getenvNames (MacOS.main img n env o fs0).calls = ["TMPDIR".toList] ∧
    (env2 "TMPDIR".toList = env "TMPDIR".toList →
      MacOS.main img n env2 o fs0 = MacOS.main img n env o fs0) ∧
    (∀ d, env "TMPDIR".toList = some d →
      mkstempTemplates (MacOS.main img n env o fs0).calls =
        [(d ++ "/wallpaper_XXXXXX.png".toList).take 511] ∧
      (d.length ≤ 489 →
        mkstempTemplates (MacOS.main img n env o fs0).calls =
          [d ++ "/wallpaper_XXXXXX.png".toList])) ∧
    (env "TMPDIR".toList = none →
      mkstempTemplates (MacOS.main img n env o fs0).calls =
        ["/tmp/wallpaper_XXXXXX.png".toList]) := by
  refine ⟨?_, ?_, ?_, ?_⟩
  · cases hm : o.mkstemp <;> cases hf : o.fopen <;>
      simp [MacOS.main, MacOS.TMPDIR, World.call, Run.calls, getenvNames, hm, hf]
  · intro h
    have h2 : env2 MacOS.TMPDIR = env MacOS.TMPDIR := h
    simp only [MacOS.main, h2]
  · intro d hd
    have hd' : env MacOS.TMPDIR = some d := hd
    have ht : mkstempTemplates (MacOS.main img n env o fs0).calls =
        [(d ++ "/wallpaper_XXXXXX.png".toList).take 511] := by
      cases hm : o.mkstemp <;> cases hf : o.fopen <;>
        simp [MacOS.main, World.call, Run.calls, mkstempTemplates, snprintf,
          MacOS.templateText, hm, hf, hd']
    refine ⟨ht, fun hl => ?_⟩
    have hc : (d ++ "/wallpaper_XXXXXX.png".toList).length ≤ 511 := by
      simp; omega
    rw [ht, List.take_of_length_le hc]
  · intro hd
    have hd' : env MacOS.TMPDIR = none := hd
    cases hm : o.mkstemp <;> cases hf : o.fopen <;>
      simp [MacOS.main, World.call, Run.calls, mkstempTemplates, snprintf,
        MacOS.templateText, hm, hf, hd']


/-- Instance of `C8_tmpdir_and_template`: `TMPDIR` set to the empty string gives
the template `"/wallpaper_XXXXXX.png"`, in two environments that differ on every
other variable; `TMPDIR` unset gives `"/tmp/wallpaper_XXXXXX.png"`. -/
theorem C8_tmpdir_and_template_witness :
    MacOS.main [0] 0 otherEnv (macAllOk 0) emptyFS =
      MacOS.main [0] 0 emptyTmpdirEnv (macAllOk 0) emptyFS ∧
    mkstempTemplates (MacOS.main [0] 0 emptyTmpdirEnv (macAllOk 0) emptyFS).calls =
      [[] ++ "/wallpaper_XXXXXX.png".toList] ∧
    mkstempTemplates (MacOS.main [0] 0 noEnv (macAllOk 0) emptyFS).calls =
      ["/tmp/wallpaper_XXXXXX.png".toList] :=
  ⟨(C8_tmpdir_and_template [0] 0 emptyTmpdirEnv otherEnv (macAllOk 0) emptyFS).2.1 rfl,
    ((C8_tmpdir_and_template [0] 0 emptyTmpdirEnv otherEnv (macAllOk 0) emptyFS).2.2.1 []
      rfl).2 (by decide),
    (C8_tmpdir_and_template [0] 0 noEnv noEnv (macAllOk 0) emptyFS).2.2.2 rfl⟩

/-- In the macOS variant, for every directory of at most 490 bytes the last six
chars of the template are `"XX.png"`. -/
theorem macos_template_lastSix (d : CStr) (hl : d.length ≤ 490) :
    lastSix (snprintf 512 (MacOS.templateText d)) = "XX.png".toList := by
  have hc : (MacOS.templateText d).length ≤ 511 := by
    simp [MacOS.templateText]; omega
  have hlen : (MacOS.templateText d).length - 6 = d.length + 15 := by
    simp [MacOS.templateText]
  simp only [snprintf, lastSix, List.take_of_length_le hc, hlen]
  simp only [MacOS.templateText, List.drop_append]
  rfl

/-- C9 (the code departs from it): with `TMPDIR` unset the template `main`
hands to `mkstemp` is `"/tmp/wallpaper_XXXXXX.png"`; its last six chars are
`"XX.png"`, not `"XXXXXX"`. -/
theorem C9_template_ends_in_png :
    mkstempTemplates (MacOS.main [0] 0 noEnv (macAllOk 0) emptyFS).calls =
      ["/tmp/wallpaper_XXXXXX.png".toList] ∧
    (mkstempTemplates (MacOS.main [0] 0 noEnv (macAllOk 0) emptyFS).calls).map lastSix =
      ["XX.png".toList] ∧
    (mkstempTemplates (MacOS.main [0] 0 noEnv (macAllOk 0) emptyFS).calls).map lastSix ≠
      ["XXXXXX".toList] := by
  decide

/-! ## The command of the macOS variant -/

/-- C10: in the macOS variant, for every temp file name of at most 511 bytes,
the string passed to `system` is the fixed text
`osascript -e 'tell application "System Events" to tell every desktop to set picture to "`
followed by the name followed by `"'`; its length is the length of the name
plus 90, at most 601, below the 1023 chars the `command` buffer can hold. -/
theorem C10_command (img : List Byte) (n : Nat) (env : CStr → Option CStr)
    (o : MacOS.Outcomes) (fs0 : FS) (name : CStr)
    (hm : o.mkstemp = some name) (hf : o.fopen = true) (hl : name.length ≤ 511) :
    systemCommands (MacOS.main img n env o fs0).calls =
      ["osascript -e 'tell application \"System Events\" to tell every desktop to set picture to \"".toList
        ++ name ++ "\"'".toList] ∧
    ("osascript -e 'tell application \"System Events\" to tell every desktop to set picture to \"".toList
        ++ name ++ "\"'".toList).length = name.length + 90 ∧
    name.length + 90 ≤ 601 ∧ 601 ≤ 1024 - 1 := by
  have hc : (MacOS.commandText name).length ≤ 1023 := by
    simp [MacOS.commandText]; omega
  refine ⟨?_, ?_, by omega, by decide⟩
  · simp only [MacOS.main, World.call, Run.calls, hm, hf, snprintf,
      List.take_of_length_le hc, MacOS.commandText]
    simp [systemCommands]
    omega
  · simp

/-- Instance of `C10_command`: the name `"/tmp/wallpaper_XXXXXX.png"` (25 bytes)
gives a command of 115 bytes. -/
theorem C10_command_witness :
    (macAllOk 0).mkstemp = some "/tmp/wallpaper_XXXXXX.png".toList ∧
    "/tmp/wallpaper_XXXXXX.png".toList.length ≤ 511 ∧
    systemCommands (MacOS.main [0] 0 noEnv (macAllOk 0) emptyFS).calls =
      ["osascript -e 'tell application \"System Events\" to tell every desktop to set picture to \"".toList
        ++ "/tmp/wallpaper_XXXXXX.png".toList ++ "\"'".toList] ∧
    ("osascript -e 'tell application \"System Events\" to tell every desktop to set picture to \"".toList
        ++ "/tmp/wallpaper_XXXXXX.png".toList ++ "\"'".toList).length = 25 + 90 :=
  ⟨rfl, by decide,
    (C10_command [0] 0 noEnv (macAllOk 0) emptyFS "/tmp/wallpaper_XXXXXX.png".toList rfl rfl
      (by decide)).1,
    (C10_command [0] 0 noEnv (macAllOk 0) emptyFS "/tmp/wallpaper_XXXXXX.png".toList rfl rfl
      (by decide)).2.1⟩


end Hotware
